import Mathlib

/-!
# CarApiBase (AirLib/include/vehicles/car/api/CarApiBase.hpp)

A shallow embedding of `msr::airlib::CarApiBase`: the `CarControls` value
record with its `set_throttle` helper, and the sensor lifecycle of the
vehicle (`initialize`, `addSensorsFromSettings`, `reset`, `update`,
`reportState`).

Conventions of the embedding.

* A C++ `float` is an IEEE-754 binary32 value, kept as its three bit fields
  (`Float32`).  The only float operations of the header are `std::abs` and
  unary minus, which act on the sign bit alone, so no rounding is involved.
* A member function becomes a function from the object before the call to
  an `Outcome`: the object as the call leaves it, the calls made on
  collaborators in the order they happen (`Event`), and why the call did not
  complete, if it did not (`Failure`).  An exception is not caught anywhere in
  the header, so it ends every enclosing call and keeps the members as they
  are when it is thrown.
* The classes the header includes but does not define (`SensorCollection`,
  `SensorFactory`, `SensorBase`, `VehicleApiBase`, `AirSimSettings`,
  `StateReporter`) are modelled from the specification; `SensorFactory` is
  abstract and stays a parameter.
* `SensorBase*` is the position of the sensor in the owning
  `sensor_storage_` vector.
* Pointer and `shared_ptr` arguments are taken non-null, as the header
  dereferences them unguarded; the member `sensor_factory_` is null until the
  first `initialize`.
-/

namespace msr.airlib

/-! ## `float` -/

/-- An IEEE-754 binary32 value: sign bit, 8-bit biased exponent, 23-bit fraction. -/
structure Float32 where
  sign : Bool
  exponent : Fin 256
  mantissa : Fin 8388608
deriving DecidableEq, Repr

/-- The literal `0` (positive zero). -/
def Float32.zero : Float32 := ⟨false, 0, 0⟩

/-- The value `1.0f` (bits `0x3F800000`). -/
def Float32.one : Float32 := ⟨false, 127, 0⟩

/-- The value `-1.0f` (bits `0xBF800000`). -/
def Float32.negOne : Float32 := ⟨true, 127, 0⟩

/-- The value `2.0f` (bits `0x40000000`). -/
def Float32.two : Float32 := ⟨false, 128, 0⟩

/-- The literal `0.6f`, the binary32 value nearest to 0.6 (bits `0x3F19999A`). -/
def Float32.point6 : Float32 := ⟨false, 126, 1677722⟩

/-- The literal `-0.6f` (bits `0xBF19999A`). -/
def Float32.negPoint6 : Float32 := ⟨true, 126, 1677722⟩

/-- The default quiet NaN (bits `0x7FC00000`). -/
def Float32.quietNaN : Float32 := ⟨false, 255, 4194304⟩

/-- Value of `std::abs(x)`: the sign bit is cleared, every other bit is kept. -/
def Float32.abs (x : Float32) : Float32 := { x with sign := false }

/-- Value of unary minus `-x`: the sign bit is flipped, every other bit is kept. -/
def Float32.neg (x : Float32) : Float32 := { x with sign := !x.sign }

/-- Value of `std::isnan(x)`: all exponent bits set and a non-zero fraction. -/
def Float32.isNaN (x : Float32) : Bool := x.exponent.val == 255 && x.mantissa.val != 0

/-- Value of `std::isinf(x)`. -/
def Float32.isInf (x : Float32) : Bool := x.exponent.val == 255 && x.mantissa.val == 0

/-- Signed magnitude of the bit pattern.  On values that are not NaN the order of
the keys is the numerical order of the floats (both zeros have key 0). -/
def Float32.key (x : Float32) : Int :=
  let m : Int := (x.exponent.val : Int) * 8388608 + (x.mantissa.val : Int)
  if x.sign then -m else m

/-- Value of the comparison `a <= b`: false as soon as one operand is NaN. -/
def Float32.le (a b : Float32) : Bool :=
  !a.isNaN && !b.isNaN && decide (a.key ≤ b.key)

/-- The rational number a finite binary32 value stands for; `none` for the
infinities and the NaNs. -/
def Float32.toRat? (x : Float32) : Option ℚ :=
  if x.exponent.val == 255 then none
  else
    let mag : ℚ :=
      if x.exponent.val == 0 then (x.mantissa.val : ℚ) / 2 ^ 149
      else ((8388608 + x.mantissa.val : Nat) : ℚ) * 2 ^ x.exponent.val / 2 ^ 150
    some (if x.sign then -mag else mag)

/-- The magnitude of a finite value, in units of 2^-150. -/
def Float32.scaled (x : Float32) : Nat :=
  if x.exponent.val == 0 then 2 * x.mantissa.val
  else (8388608 + x.mantissa.val) * 2 ^ x.exponent.val

/-- The exponent and fraction bits, read as one integer. -/
def Float32.magnitudeBits (x : Float32) : Nat := x.exponent.val * 8388608 + x.mantissa.val

/-! ## `CarApiBase::CarControls` -/

/-- The struct `CarApiBase::CarControls`, fields with their default member initialisers. -/
structure CarApiBase.CarControls where
  throttle : Float32 := Float32.zero
  steering : Float32 := Float32.zero
  brake : Float32 := Float32.zero
  handbrake : Bool := false
  is_manual_gear : Bool := false
  manual_gear : Int := 0
  gear_immediate : Bool := true
deriving DecidableEq, Repr

/-- The member function `CarControls::set_throttle(float throttle_val, bool forward)`. -/
def CarApiBase.CarControls.set_throttle (self : CarApiBase.CarControls)
    (throttle_val : Float32) (forward : Bool) : CarApiBase.CarControls :=
  if forward then
    { self with
      is_manual_gear := false
      manual_gear := 0
      throttle := Float32.abs throttle_val }
  else
    { self with
      is_manual_gear := false
      manual_gear := -1
      throttle := Float32.neg (Float32.abs throttle_val) }

/-! ## Collaborators of the vehicle -/

/-- The enum `SensorBase::SensorType`, by its integer value (the sensor category). -/
abbrev SensorType := Nat

/-- Modelled from the spec: `AirSimSettings::SensorSetting`, whose declaration is
not part of this header.  A configuration entry describing one sensor to
construct: its declared category and its settings. -/
structure SensorSetting where
  sensor_type : SensorType
  settings : String
deriving DecidableEq, Repr

/-- The type `std::map<std::string, std::unique_ptr<AirSimSettings::SensorSetting>>`:
the entries in iteration order, `size()` being the length. -/
abbrev SensorSettingsMap := List (String × SensorSetting)

/-- Modelled from the spec: `AirSimSettings::VehicleSetting`, whose declaration is
not part of this header.  Of its fields only the sensor mapping is read here. -/
structure VehicleSetting where
  sensors : SensorSettingsMap
deriving DecidableEq, Repr

/-- Modelled from the spec: the fatal configuration errors a sensor factory
reports (section 7): an unrecognized sensor category, or malformed settings. -/
inductive ConfigError where
  | unrecognizedCategory (sensor_type : SensorType)
  | malformedSettings (name : String)
deriving DecidableEq, Repr

/-- Modelled from the spec: a sensor instance (`SensorBase`), whose class is not
part of this header.  An instance is identified by the configuration entry it
was constructed from. -/
structure SensorBase where
  name : String
  setting : SensorSetting
deriving DecidableEq, Repr

/-- Modelled from the spec: the sensor instance constructed for one entry of a
settings mapping (section 4.1). -/
def SensorBase.ofEntry (entry : String × SensorSetting) : SensorBase :=
  { name := entry.1, setting := entry.2 }

/-- A `SensorBase*` held by the registry: the position of the sensor in the
`sensor_storage_` vector that owns it. -/
abbrev SensorPtr := Nat

/-- Address of the `Kinematics::State` passed by reference to `initialize`. -/
abbrev KinematicsRef := Nat

/-- Address of the `Environment` passed by reference to `initialize`. -/
abbrev EnvironmentRef := Nat

/-- A call made on a collaborator of `CarApiBase`, in the order the calls happen. -/
inductive Event where
  | createSensorsFromSettings (sensor_settings : SensorSettingsMap)
  | vehicleApiBaseReset
  | vehicleApiBaseUpdate
  | sensorCollectionInitialize (kinematics : KinematicsRef) (environment : EnvironmentRef)
  | sensorInitialize (sensor : SensorPtr) (kinematics : KinematicsRef) (environment : EnvironmentRef)
  | sensorCollectionReset
  | sensorReset (sensor : SensorPtr)
  | sensorCollectionUpdate
  | sensorUpdate (sensor : SensorPtr)
  | sensorCollectionReportState
  | sensorReportState (sensor : SensorPtr)
deriving DecidableEq, Repr

/-- The settings mapping handed to the factory, when the event is a call of
`SensorFactory::createSensorsFromSettings`. -/
def Event.factorySettings? : Event → Option SensorSettingsMap
  | Event.createSensorsFromSettings sensor_settings => some sensor_settings
  | _ => none

/-- Modelled from the spec: what one sensor writes into a `StateReporter`, its
diagnostic state, kept as the identity of the sensor. -/
structure ReportEntry where
  sensor : SensorPtr
  sensor_type : SensorType
deriving DecidableEq, Repr

/-- Modelled from the spec: `StateReporter`, an external diagnostic sink; the
entries written so far, oldest first. -/
abbrev StateReporter := List ReportEntry

/-- Modelled from the spec: `SensorCollection` (section 4.2), whose class is not
part of this header.  A registry of non-owning sensor references, each under
its category, in registration order. -/
structure SensorCollection where
  entries : List (SensorType × SensorPtr) := []
deriving DecidableEq, Repr

/-- Modelled from the spec: `SensorCollection::clear()`. -/
def SensorCollection.clear (_self : SensorCollection) : SensorCollection :=
  { entries := [] }

/-- Modelled from the spec: `SensorCollection::insert(sensor, type)`, registering
a reference under a category. -/
def SensorCollection.insert (self : SensorCollection) (sensor : SensorPtr)
    (type : SensorType) : SensorCollection :=
  { entries := self.entries ++ [(type, sensor)] }

/-- Modelled from the spec: lookup by category, the ordered sequence of the
sensors of that category (empty if none is registered). -/
def SensorCollection.getByType (self : SensorCollection) (type : SensorType) : List SensorPtr :=
  (self.entries.filter (fun e => e.1 == type)).map (fun e => e.2)

/-- Modelled from the spec: `SensorCollection::size(type)`. -/
def SensorCollection.size (self : SensorCollection) (type : SensorType) : Nat :=
  (self.getByType type).length

/-- Modelled from the spec: `SensorCollection::initialize(kinematics, environment)`
propagates the two references into every registered sensor, once each. -/
def SensorCollection.initialize (self : SensorCollection) (kinematics : KinematicsRef)
    (environment : EnvironmentRef) : List Event :=
  Event.sensorCollectionInitialize kinematics environment ::
    self.entries.map (fun e => Event.sensorInitialize e.2 kinematics environment)

/-- Modelled from the spec: `SensorCollection::reset()` invokes reset on every
registered sensor. -/
def SensorCollection.reset (self : SensorCollection) : List Event :=
  Event.sensorCollectionReset :: self.entries.map (fun e => Event.sensorReset e.2)

/-- Modelled from the spec: `SensorCollection::update()` invokes one tick update
on every registered sensor, in registration order. -/
def SensorCollection.update (self : SensorCollection) : List Event :=
  Event.sensorCollectionUpdate :: self.entries.map (fun e => Event.sensorUpdate e.2)

/-- Modelled from the spec: what `SensorCollection::reportState(reporter)` leaves
in the reporter: every registered sensor appends its state, in registration order. -/
def SensorCollection.reportState (self : SensorCollection) (reporter : StateReporter) :
    StateReporter :=
  reporter ++ self.entries.map (fun e => { sensor := e.2, sensor_type := e.1 })

/-- Modelled from the spec: the calls `SensorCollection::reportState` makes, one
on every registered sensor, in registration order. -/
def SensorCollection.reportStateEvents (self : SensorCollection) : List Event :=
  Event.sensorCollectionReportState :: self.entries.map (fun e => Event.sensorReportState e.2)

/-- Modelled from the spec: `VehicleApiBase::reset()`, the generic vehicle reset hook. -/
def VehicleApiBase.reset : List Event := [Event.vehicleApiBaseReset]

/-- Modelled from the spec: `VehicleApiBase::update()`, the generic vehicle update hook. -/
def VehicleApiBase.update : List Event := [Event.vehicleApiBaseUpdate]

/-- What a call of `SensorFactory::createSensorsFromSettings` leaves behind: the
two out-parameters, and the configuration error thrown, if any. -/
structure FactoryResult where
  sensors : SensorCollection
  sensor_storage : List SensorBase
  thrown : Option ConfigError
deriving DecidableEq, Repr

/-- The abstract class `SensorFactory`: its one operation used by the vehicle,
`createSensorsFromSettings(sensors_settings, sensors, sensor_storage)`, a `const`
member taking the registry and the storage by reference. -/
structure SensorFactory where
  createSensorsFromSettings :
    SensorSettingsMap → SensorCollection → List SensorBase → FactoryResult

/-- Modelled from the spec: the loop of `SensorFactory::createSensorsFromSettings`
(section 4.1).  For each entry in turn a sensor is constructed, appended to the
storage, and registered under its category; the first entry that cannot be
constructed ends the call with its error. -/
def SensorFactory.createEach (createSensor : String × SensorSetting → Except ConfigError SensorBase) :
    SensorSettingsMap → SensorCollection → List SensorBase → FactoryResult
  | [], sensors, sensor_storage => ⟨sensors, sensor_storage, none⟩
  | entry :: rest, sensors, sensor_storage =>
    match createSensor entry with
    | Except.error e => ⟨sensors, sensor_storage, some e⟩
    | Except.ok sensor =>
      SensorFactory.createEach createSensor rest
        (sensors.insert sensor_storage.length entry.2.sensor_type)
        (sensor_storage ++ [sensor])

/-- Modelled from the spec: construction of one sensor.  An unrecognized category
or malformed settings are configuration errors. -/
def SensorFactory.createSensorFromSettings (recognized : SensorType → Bool)
    (wellFormed : SensorSetting → Bool) (entry : String × SensorSetting) :
    Except ConfigError SensorBase :=
  if !recognized entry.2.sensor_type then
    Except.error (ConfigError.unrecognizedCategory entry.2.sensor_type)
  else if !wellFormed entry.2 then
    Except.error (ConfigError.malformedSettings entry.1)
  else
    Except.ok (SensorBase.ofEntry entry)

/-- Modelled from the spec: a sensor factory (section 4.1) recognizing the given
categories and accepting the given settings. -/
def SensorFactory.standard (recognized : SensorType → Bool)
    (wellFormed : SensorSetting → Bool) : SensorFactory :=
  { createSensorsFromSettings :=
      SensorFactory.createEach (SensorFactory.createSensorFromSettings recognized wellFormed) }

/-- The registry entries for a settings mapping whose sensors are stored from
position `base` on: one reference per entry, under the category of the entry. -/
def registryFor : SensorSettingsMap → Nat → List (SensorType × SensorPtr)
  | [], _ => []
  | entry :: rest, base => (entry.2.sensor_type, base) :: registryFor rest (base + 1)

/-- A factory call builds one owned instance and one registry entry per settings
entry: it appends to the storage the instance of each entry, in order, appends
to the registry a reference to each, and reports no error. -/
def SensorFactory.BuildsOnePerEntry (factory : SensorFactory) (settings : SensorSettingsMap)
    (sensors : SensorCollection) (sensor_storage : List SensorBase) : Prop :=
  factory.createSensorsFromSettings settings sensors sensor_storage =
    { sensors := { entries := sensors.entries ++ registryFor settings sensor_storage.length }
      sensor_storage := sensor_storage ++ settings.map SensorBase.ofEntry
      thrown := none }

/-! ## `CarApiBase` -/

/-- The data members of `CarApiBase`, with the values they have before the body
of the constructor runs: a null factory pointer, an empty registry, an empty
storage. -/
structure CarApiBase where
  sensor_factory_ : Option SensorFactory := none
  sensors_ : SensorCollection := {}
  sensor_storage_ : List SensorBase := []

/-- Why a member call did not complete: a configuration error thrown by the
factory, or the dereference of a null `sensor_factory_`. -/
inductive Failure where
  | configuration (error : ConfigError)
  | nullSensorFactory
deriving DecidableEq, Repr

/-- What a member call leaves behind: the object, the calls made on
collaborators, and why the call did not complete, if it did not. -/
structure Outcome where
  state : CarApiBase
  events : List Event
  failure : Option Failure

/-- The accessor `getSensors()` (both overloads return `sensors_`). -/
def CarApiBase.getSensors (self : CarApiBase) : SensorCollection := self.sensors_

/-- The member function `addSensorsFromSettings(vehicle_setting)`.  The parameter
`sensor_defaults` is `AirSimSettings::singleton().sensor_defaults`.  The factory
writes through the references to `sensors_` and `sensor_storage_`; an exception
it throws leaves the two members as the factory left them. -/
def CarApiBase.addSensorsFromSettings (sensor_defaults : SensorSettingsMap)
    (self : CarApiBase) (vehicle_setting : VehicleSetting) : Outcome :=
  let sensor_settings : SensorSettingsMap :=
    if vehicle_setting.sensors.length > 0 then vehicle_setting.sensors else sensor_defaults
  match self.sensor_factory_ with
  | none => { state := self, events := [], failure := some Failure.nullSensorFactory }
  | some factory =>
    let built :=
      factory.createSensorsFromSettings sensor_settings self.sensors_ self.sensor_storage_
    { state := { self with sensors_ := built.sensors, sensor_storage_ := built.sensor_storage }
      events := [Event.createSensorsFromSettings sensor_settings]
      failure := built.thrown.map Failure.configuration }

/-- The member function `initialize(vehicle_setting, sensor_factory, state, environment)`. -/
def CarApiBase.initialize (sensor_defaults : SensorSettingsMap) (self : CarApiBase)
    (vehicle_setting : VehicleSetting) (sensor_factory : SensorFactory)
    (state : KinematicsRef) (environment : EnvironmentRef) : Outcome :=
  let self := { self with sensor_factory_ := some sensor_factory }
  let self := { self with sensor_storage_ := [] }
  let self := { self with sensors_ := self.sensors_.clear }
  let added := self.addSensorsFromSettings sensor_defaults vehicle_setting
  match added.failure with
  | some e => { state := added.state, events := added.events, failure := some e }
  | none =>
    { state := added.state
      events := added.events ++ added.state.getSensors.initialize state environment
      failure := none }

/-- The constructor `CarApiBase(vehicle_setting, sensor_factory, state, environment)`:
`initialize` on the default-initialised members; an exception leaving the body
means no object is constructed. -/
def CarApiBase.construct (sensor_defaults : SensorSettingsMap)
    (vehicle_setting : VehicleSetting) (sensor_factory : SensorFactory)
    (state : KinematicsRef) (environment : EnvironmentRef) : Except Failure CarApiBase :=
  let r := CarApiBase.initialize sensor_defaults {} vehicle_setting sensor_factory state environment
  match r.failure with
  | some e => Except.error e
  | none => Except.ok r.state

/-- The member function `reset()`. -/
def CarApiBase.reset (self : CarApiBase) : Outcome :=
  let e1 := VehicleApiBase.reset
  let e2 := self.getSensors.reset
  { state := self, events := e1 ++ e2, failure := none }

/-- The member function `update()`. -/
def CarApiBase.update (self : CarApiBase) : Outcome :=
  let e1 := VehicleApiBase.update
  let e2 := self.getSensors.update
  { state := self, events := e1 ++ e2, failure := none }

/-- The member function `reportState(reporter)`: the object after the call, the
calls made, and the reporter after the call. -/
def CarApiBase.reportState (self : CarApiBase) (reporter : StateReporter) :
    Outcome × StateReporter :=
  ({ state := self, events := self.getSensors.reportStateEvents, failure := none },
    self.getSensors.reportState reporter)

/-! ## Example configurations -/

/-- A process-wide default sensor mapping: an IMU (category 2) and a GPS (category 3). -/
def exampleDefaults : SensorSettingsMap :=
  [("gps", { sensor_type := 3, settings := "" }), ("imu", { sensor_type := 2, settings := "" })]

/-- A vehicle declaring one lidar (category 6) of its own. -/
def exampleLidarVehicle : VehicleSetting :=
  { sensors := [("lidar1", { sensor_type := 6, settings := "range=100" })] }

/-- A vehicle declaring no sensor. -/
def exampleBareVehicle : VehicleSetting := { sensors := [] }

/-- A vehicle declaring a GPS and a sensor of the unknown category 99. -/
def exampleBrokenVehicle : VehicleSetting :=
  { sensors := [("gps", { sensor_type := 3, settings := "" }),
                ("warp", { sensor_type := 99, settings := "" })] }

/-- A factory recognizing the categories 1 to 6 and accepting all settings. -/
def exampleFactory : SensorFactory :=
  SensorFactory.standard (fun type => decide (1 ≤ type ∧ type ≤ 6)) (fun _ => true)

/-- A vehicle already initialized with two sensors. -/
def exampleCar : CarApiBase :=
  { sensor_factory_ := some exampleFactory
    sensors_ := { entries := [(3, 0), (2, 1)] }
    sensor_storage_ := exampleDefaults.map SensorBase.ofEntry }

/-! ## Facts about the collaborators -/

theorem SensorBase.ofEntry_injective (a b : String × SensorSetting)
    (h : SensorBase.ofEntry a = SensorBase.ofEntry b) : a = b := by
  obtain ⟨an, as⟩ := a
  obtain ⟨bn, bs⟩ := b
  simp only [SensorBase.ofEntry, SensorBase.mk.injEq] at h
  exact Prod.ext h.1 h.2

theorem registryFor_length (settings : SensorSettingsMap) (base : Nat) :
    (registryFor settings base).length = settings.length := by
  induction settings generalizing base with
  | nil => rfl
  | cons entry rest ih => simp [registryFor, ih]

theorem registryFor_mem_bounds (settings : SensorSettingsMap) (base : Nat)
    (p : SensorType × SensorPtr) (hp : p ∈ registryFor settings base) :
    base ≤ p.2 ∧ p.2 < base + settings.length := by
  induction settings generalizing base with
  | nil => simp [registryFor] at hp
  | cons entry rest ih =>
    simp only [registryFor, List.mem_cons] at hp
    rcases hp with h | h
    · subst h
      simp
    · obtain ⟨h1, h2⟩ := ih (base + 1) h
      have h3 : @LT.lt Nat _ p.2 (base + 1 + rest.length) := h2
      have h4 : @LT.lt Nat _ p.2 (base + (rest.length + 1)) := by omega
      exact ⟨by omega, h4⟩

theorem registryFor_mem (settings : SensorSettingsMap) (base : Nat)
    (p : SensorType × SensorPtr) (hp : p ∈ registryFor settings base) :
    ∃ (i : Nat) (entry : String × SensorSetting),
      settings[i]? = some entry ∧ p = (entry.2.sensor_type, base + i) := by
  induction settings generalizing base with
  | nil => simp [registryFor] at hp
  | cons entry rest ih =>
    simp only [registryFor, List.mem_cons] at hp
    rcases hp with h | h
    · exact ⟨0, entry, List.getElem?_cons_zero, h⟩
    · obtain ⟨i, found, hfound, hp⟩ := ih (base + 1) h
      refine ⟨i + 1, found, ?_, ?_⟩
      · rw [List.getElem?_cons_succ]
        exact hfound
      · rw [hp, Nat.add_assoc, Nat.add_comm 1 i]

theorem registryFor_filter_length (settings : SensorSettingsMap) (base : Nat) (type : SensorType) :
    ((registryFor settings base).filter (fun e => e.1 == type)).length =
      (settings.filter (fun entry => entry.2.sensor_type == type)).length := by
  induction settings generalizing base with
  | nil => rfl
  | cons entry rest ih =>
    by_cases h : entry.2.sensor_type = type
    · simp [registryFor, List.filter_cons, h, ih]
    · simp [registryFor, List.filter_cons, h, ih]

/-- The registry of a settings mapping holds, under each category, as many
references as the mapping has entries of that category. -/
theorem SensorCollection.size_registryFor (settings : SensorSettingsMap) (type : SensorType) :
    SensorCollection.size { entries := registryFor settings 0 } type =
      (settings.filter (fun entry => entry.2.sensor_type == type)).length := by
  simp [SensorCollection.size, SensorCollection.getByType, registryFor_filter_length]

theorem SensorFactory.createEach_eq
    (createSensor : String × SensorSetting → Except ConfigError SensorBase)
    (settings : SensorSettingsMap)
    (hok : ∀ entry ∈ settings, createSensor entry = Except.ok (SensorBase.ofEntry entry))
    (sensors : SensorCollection) (sensor_storage : List SensorBase) :
    SensorFactory.createEach createSensor settings sensors sensor_storage =
      { sensors := { entries := sensors.entries ++ registryFor settings sensor_storage.length }
        sensor_storage := sensor_storage ++ settings.map SensorBase.ofEntry
        thrown := none } := by
  induction settings generalizing sensors sensor_storage with
  | nil => simp [SensorFactory.createEach, registryFor]
  | cons entry rest ih =>
    have h1 := hok entry (List.mem_cons_self _ _)
    have h2 : ∀ e ∈ rest, createSensor e = Except.ok (SensorBase.ofEntry e) :=
      fun e he => hok e (List.mem_cons_of_mem _ he)
    simp only [SensorFactory.createEach, h1]
    rw [ih h2]
    simp [SensorCollection.insert, registryFor]

/-- The factory of section 4.1 builds one owned instance and one registry entry
per settings entry whenever it recognizes and accepts every entry. -/
theorem SensorFactory.standard_buildsOnePerEntry (recognized : SensorType → Bool)
    (wellFormed : SensorSetting → Bool) (settings : SensorSettingsMap)
    (hok : ∀ entry ∈ settings, recognized entry.2.sensor_type = true ∧ wellFormed entry.2 = true)
    (sensors : SensorCollection) (sensor_storage : List SensorBase) :
    (SensorFactory.standard recognized wellFormed).BuildsOnePerEntry
      settings sensors sensor_storage := by
  unfold SensorFactory.BuildsOnePerEntry SensorFactory.standard
  apply SensorFactory.createEach_eq
  intro entry he
  have h := hok entry he
  simp [SensorFactory.createSensorFromSettings, h.1, h.2]

/-- The first entry the factory of section 4.1 cannot construct ends the call
with its error, the entries before it having been built. -/
theorem SensorFactory.createEach_error
    (createSensor : String × SensorSetting → Except ConfigError SensorBase)
    (before : SensorSettingsMap) (bad : String × SensorSetting) (after : SensorSettingsMap)
    (e : ConfigError)
    (hok : ∀ entry ∈ before, createSensor entry = Except.ok (SensorBase.ofEntry entry))
    (hbad : createSensor bad = Except.error e)
    (sensors : SensorCollection) (sensor_storage : List SensorBase) :
    SensorFactory.createEach createSensor (before ++ bad :: after) sensors sensor_storage =
      { sensors := { entries := sensors.entries ++ registryFor before sensor_storage.length }
        sensor_storage := sensor_storage ++ before.map SensorBase.ofEntry
        thrown := some e } := by
  induction before generalizing sensors sensor_storage with
  | nil => simp [SensorFactory.createEach, registryFor, hbad]
  | cons entry rest ih =>
    have h1 := hok entry (List.mem_cons_self _ _)
    have h2 : ∀ x ∈ rest, createSensor x = Except.ok (SensorBase.ofEntry x) :=
      fun x hx => hok x (List.mem_cons_of_mem _ hx)
    rw [List.cons_append]
    simp only [SensorFactory.createEach, h1]
    rw [ih h2]
    simp [SensorCollection.insert, registryFor]

/-! ## Facts about `initialize` -/

/-- The body of `initialize`, with the factory call made explicit: the factory is
called once, on the resolved settings, with the registry and the storage just
cleared. -/
theorem CarApiBase.initialize_eq (sensor_defaults : SensorSettingsMap) (self : CarApiBase)
    (vehicle_setting : VehicleSetting) (sensor_factory : SensorFactory)
    (state : KinematicsRef) (environment : EnvironmentRef) (built : FactoryResult)
    (hbuilt : sensor_factory.createSensorsFromSettings
      (if vehicle_setting.sensors.length > 0 then vehicle_setting.sensors else sensor_defaults)
      {} [] = built) :
    self.initialize sensor_defaults vehicle_setting sensor_factory state environment =
      match built.thrown with
      | some e =>
        { state := { sensor_factory_ := some sensor_factory, sensors_ := built.sensors,
                     sensor_storage_ := built.sensor_storage }
          events := [Event.createSensorsFromSettings
            (if vehicle_setting.sensors.length > 0 then vehicle_setting.sensors
              else sensor_defaults)]
          failure := some (Failure.configuration e) }
      | none =>
        { state := { sensor_factory_ := some sensor_factory, sensors_ := built.sensors,
                     sensor_storage_ := built.sensor_storage }
          events := Event.createSensorsFromSettings
            (if vehicle_setting.sensors.length > 0 then vehicle_setting.sensors
              else sensor_defaults) :: built.sensors.initialize state environment
          failure := none } := by
  unfold CarApiBase.initialize CarApiBase.addSensorsFromSettings
  simp only [SensorCollection.clear, hbuilt]
  clear hbuilt
  obtain ⟨sensors, sensor_storage, thrown⟩ := built
  cases thrown <;> rfl

/-! ## Facts about event traces -/

/-- In a trace that starts with `a` and has no other `a`, every occurrence of `a`
comes strictly before every occurrence of another event. -/
theorem Event.head_before (a b : Event) (rest : List Event) (ha : a ∉ rest) (hb : b ≠ a)
    (i j : Nat) (hi : (a :: rest)[i]? = some a) (hj : (a :: rest)[j]? = some b) : i < j := by
  cases i with
  | succ i =>
    rw [List.getElem?_cons_succ] at hi
    exact absurd (List.getElem?_mem hi) ha
  | zero =>
    cases j with
    | succ j => exact Nat.succ_pos j
    | zero =>
      rw [List.getElem?_cons_zero] at hj
      exact absurd (Option.some.inj hj).symm hb

/-- The initialization of the registry makes no call on the factory. -/
theorem SensorCollection.initialize_factorySettings (sensors : SensorCollection)
    (kinematics : KinematicsRef) (environment : EnvironmentRef) :
    ( sensors.initialize kinematics environment).filterMap Event.factorySettings? = [] := by
  rw [List.filterMap_eq_nil_iff]
  intro event hevent
  simp only [ SensorCollection.initialize, List.mem_cons, List.mem_map] at hevent
  rcases hevent with h | ⟨entry, _, h⟩ <;> subst h <;> rfl

/-! ## Facts about `float` -/

theorem Float32.abs_neg_eq (x : Float32) : Float32.abs (Float32.neg x) = Float32.abs x := rfl

theorem Float32.abs_idem (x : Float32) : Float32.abs (Float32.abs x) = Float32.abs x := rfl

theorem Float32.isNaN_abs (x : Float32) : (Float32.abs x).isNaN = x.isNaN := rfl

theorem Float32.isNaN_neg (x : Float32) : (Float32.neg x).isNaN = x.isNaN := rfl

theorem Float32.key_abs (x : Float32) : (Float32.abs x).key = |x.key| := by
  obtain ⟨s, e, m⟩ := x
  have he : (0 : Int) ≤ (e.val : Int) * 8388608 + (m.val : Int) := by positivity
  cases s
  · simp only [Float32.abs, Float32.key, Bool.false_eq_true, if_false]
    exact (abs_of_nonneg he).symm
  · simp only [Float32.abs, Float32.key, Bool.false_eq_true, if_false, if_true]
    rw [abs_neg]
    exact (abs_of_nonneg he).symm

theorem Float32.key_neg (x : Float32) : (Float32.neg x).key = -x.key := by
  obtain ⟨s, e, m⟩ := x
  cases s <;> simp [Float32.neg, Float32.key]

theorem Float32.le_iff (a b : Float32) :
    Float32.le a b = true ↔ a.isNaN = false ∧ b.isNaN = false ∧ a.key ≤ b.key := by
  simp [Float32.le]
  tauto

theorem Float32.isNaN_of_le_right {a b : Float32} (h : Float32.le a b = true) : b.isNaN = false :=
  ((Float32.le_iff a b).1 h).2.1

/-- The value `std::abs` returns is the absolute value of its argument, and the
value unary minus returns is its opposite, on every finite float. -/
theorem Float32.toRat?_abs_neg (x : Float32) :
    (Float32.abs x).toRat? = x.toRat?.map (fun q => |q|) ∧
    (Float32.neg x).toRat? = x.toRat?.map (fun q => -q) := by
  obtain ⟨s, e, m⟩ := x
  by_cases h255 : e.val = 255
  · simp [Float32.toRat?, Float32.abs, Float32.neg, h255]
  · by_cases h0 : e.val = 0
    · cases s <;>
        simp [Float32.toRat?, Float32.abs, Float32.neg, h255, h0] <;>
        (symm; apply abs_of_nonneg; positivity)
    · cases s <;>
        simp [Float32.toRat?, Float32.abs, Float32.neg, h255, h0] <;>
        (symm; apply abs_of_nonneg; positivity)

theorem Float32.scaled_lt (a b : Float32) (h : a.magnitudeBits < b.magnitudeBits) :
    a.scaled < b.scaled := by
  obtain ⟨sa, ea, ma⟩ := a
  obtain ⟨sb, eb, mb⟩ := b
  have hma := ma.isLt
  have hmb := mb.isLt
  simp only [Float32.magnitudeBits] at h
  simp only [Float32.scaled, beq_iff_eq]
  rcases Nat.lt_trichotomy ea.val eb.val with hlt | heq | hgt
  · -- smaller exponent
    have hb0 : eb.val ≠ 0 := by omega
    have hpow : 2 ^ (ea.val + 1) ≤ 2 ^ eb.val := Nat.pow_le_pow_right (by decide) hlt
    have hstep : 2 ^ (ea.val + 1) = 2 * 2 ^ ea.val := by rw [Nat.pow_succ]; omega
    have hbig : 8388608 * 2 ^ eb.val ≤ (8388608 + mb.val) * 2 ^ eb.val :=
      Nat.mul_le_mul_right _ (by omega)
    have hpa : 0 < 2 ^ ea.val := Nat.two_pow_pos _
    rw [if_neg hb0]
    by_cases ha0 : ea.val = 0
    · rw [if_pos ha0]
      rw [ha0] at hstep hpow
      simp only [zero_add, pow_one] at hpow
      have : 8388608 * 2 ≤ 8388608 * 2 ^ eb.val := Nat.mul_le_mul_left _ hpow
      omega
    · rw [if_neg ha0]
      have h1 : (8388608 + ma.val) * 2 ^ ea.val < 16777216 * 2 ^ ea.val :=
        Nat.mul_lt_mul_of_pos_right (by omega) hpa
      have h2 : 16777216 * 2 ^ ea.val = 8388608 * 2 ^ (ea.val + 1) := by rw [hstep]; ring
      have h3 : 8388608 * 2 ^ (ea.val + 1) ≤ 8388608 * 2 ^ eb.val := Nat.mul_le_mul_left _ hpow
      omega
  · -- same exponent
    have hm : ma.val < mb.val := by omega
    rw [heq]
    by_cases hb0 : eb.val = 0
    · rw [if_pos hb0, if_pos hb0]
      omega
    · rw [if_neg hb0, if_neg hb0]
      exact Nat.mul_lt_mul_of_pos_right (by omega) (Nat.two_pow_pos _)
  · exfalso
    have : (ea.val) * 8388608 ≥ (eb.val + 1) * 8388608 := Nat.mul_le_mul_right _ hgt
    omega

theorem Float32.scaled_le_iff (a b : Float32) :
    a.scaled ≤ b.scaled ↔ a.magnitudeBits ≤ b.magnitudeBits := by
  constructor
  · intro h
    by_contra hc
    have := Float32.scaled_lt b a (by omega)
    omega
  · intro h
    rcases Nat.lt_or_ge a.magnitudeBits b.magnitudeBits with hlt | hge
    · exact Nat.le_of_lt (Float32.scaled_lt a b hlt)
    · have heq : a.magnitudeBits = b.magnitudeBits := by omega
      obtain ⟨sa, ea, ma⟩ := a
      obtain ⟨sb, eb, mb⟩ := b
      have hma := ma.isLt
      have hmb := mb.isLt
      simp only [Float32.magnitudeBits] at heq
      have he : ea.val = eb.val := by omega
      have hm : ma.val = mb.val := by omega
      simp only [Float32.scaled, he, hm, le_refl]

theorem Float32.toRat?_eq (x : Float32) (h : x.exponent.val ≠ 255) :
    x.toRat? = some ((if x.sign then -(x.scaled : ℚ) else (x.scaled : ℚ)) / 2 ^ 150) := by
  obtain ⟨s, e, m⟩ := x
  simp only at h
  by_cases h0 : e.val = 0
  · cases s <;> (simp [Float32.toRat?, Float32.scaled, h, h0]; ring)
  · cases s <;> (simp [Float32.toRat?, Float32.scaled, h, h0]; try ring)

theorem Float32.key_eq (x : Float32) :
    x.key = if x.sign then -(x.magnitudeBits : Int) else (x.magnitudeBits : Int) := by
  simp [Float32.key, Float32.magnitudeBits]

/-- On finite values the comparison `<=` is the order of the rationals the
values stand for. -/
theorem Float32.le_iff_toRat?_le (a b : Float32) (x y : ℚ)
    (ha : a.toRat? = some x) (hb : b.toRat? = some y) :
    Float32.le a b = true ↔ x ≤ y := by
  have hea : a.exponent.val ≠ 255 := by
    intro h
    simp [Float32.toRat?, h] at ha
  have heb : b.exponent.val ≠ 255 := by
    intro h
    simp [Float32.toRat?, h] at hb
  rw [Float32.toRat?_eq a hea] at ha
  rw [Float32.toRat?_eq b heb] at hb
  have hx := (Option.some.inj ha).symm
  have hy := (Option.some.inj hb).symm
  have hna : a.isNaN = false := by simp [Float32.isNaN, hea]
  have hnb : b.isNaN = false := by simp [Float32.isNaN, heb]
  have hiff := Float32.scaled_le_iff a b
  have hiff2 := Float32.scaled_le_iff b a
  have hD : (0 : ℚ) < 2 ^ 150 := by positivity
  have hzero : ∀ c : Float32, c.scaled = 0 ↔ c.magnitudeBits = 0 := by
    intro c
    have h := Float32.scaled_le_iff c ⟨false, 0, 0⟩
    have h1 : (⟨false, 0, 0⟩ : Float32).scaled = 0 := by decide
    have h2 : (⟨false, 0, 0⟩ : Float32).magnitudeBits = 0 := by decide
    rw [h1, h2] at h
    omega
  have hza := hzero a
  have hzb := hzero b
  have hqa : (0 : ℚ) ≤ (a.scaled : ℚ) := Nat.cast_nonneg _
  have hqb : (0 : ℚ) ≤ (b.scaled : ℚ) := Nat.cast_nonneg _
  simp only [Float32.le, hna, hnb, Bool.not_false, Bool.true_and, decide_eq_true_eq]
  rw [hx, hy, div_le_div_iff_of_pos_right hD, Float32.key_eq, Float32.key_eq]
  cases hsa : a.sign <;> cases hsb : b.sign <;> simp only [Bool.false_eq_true, if_false, if_true]
  · rw [Nat.cast_le, Nat.cast_le]
    exact hiff.symm
  · constructor
    · intro h
      have h1 : a.magnitudeBits = 0 := by omega
      have h2 : b.magnitudeBits = 0 := by omega
      rw [hza.2 h1, hzb.2 h2]
      simp
    · intro h
      have h1 : (a.scaled : ℚ) = 0 := by linarith
      have h2 : (b.scaled : ℚ) = 0 := by linarith
      have h3 : a.scaled = 0 := by exact_mod_cast h1
      have h4 : b.scaled = 0 := by exact_mod_cast h2
      have h5 := hza.1 h3
      have h6 := hzb.1 h4
      omega
  · constructor
    · intro _
      linarith
    · intro _
      omega
  · rw [neg_le_neg_iff, neg_le_neg_iff, Nat.cast_le, Nat.cast_le]
    exact hiff2.symm

/-! ## `set_throttle` -/

/-- Claim C6, counterexample: `set_throttle(NaN, forward)` stores a NaN, so the
stored throttle is neither `>= 0` when forward nor `<= 0` when reverse. -/
theorem C6_counterexample :
    (CarApiBase.CarControls.set_throttle {} Float32.quietNaN true).throttle
      = Float32.abs Float32.quietNaN ∧
    Float32.le Float32.zero
      (CarApiBase.CarControls.set_throttle {} Float32.quietNaN true).throttle = false ∧
    Float32.le (CarApiBase.CarControls.set_throttle {} Float32.quietNaN false).throttle
      Float32.zero = false := by
  decide

/-- Claim C6, amended: `set_throttle(v, true)` leaves throttle = |v|,
is_manual_gear = false, manual_gear = 0, and `set_throttle(v, false)` leaves
throttle = -|v|, is_manual_gear = false, manual_gear = -1, whatever the record
held before; the result is the same for v and -v; the sign bit of throttle is
clear when forward and set when reverse; when v is finite the number stored is
the absolute value of the number v stands for, or its opposite; and when v is
not NaN, throttle is `>= 0` when forward and `<= 0` when reverse. -/
theorem C6_set_throttle_result (c : CarApiBase.CarControls) (v : Float32) :
    ((c.set_throttle v true).throttle = Float32.abs v ∧
      (c.set_throttle v true).is_manual_gear = false ∧
      (c.set_throttle v true).manual_gear = 0) ∧
    ((c.set_throttle v false).throttle = Float32.neg (Float32.abs v) ∧
      (c.set_throttle v false).is_manual_gear = false ∧
      (c.set_throttle v false).manual_gear = -1) ∧
    (c.set_throttle (Float32.neg v) true = c.set_throttle v true ∧
      c.set_throttle (Float32.neg v) false = c.set_throttle v false) ∧
    ((c.set_throttle v true).throttle.sign = false ∧
      (c.set_throttle v false).throttle.sign = true) ∧
    ((c.set_throttle v true).throttle.toRat? = v.toRat?.map (fun q => |q|) ∧
      (c.set_throttle v false).throttle.toRat? = v.toRat?.map (fun q => -|q|)) ∧
    (v.isNaN = false →
      Float32.le Float32.zero (c.set_throttle v true).throttle = true ∧
      Float32.le (c.set_throttle v false).throttle Float32.zero = true) := by
  refine ⟨⟨rfl, rfl, rfl⟩, ⟨rfl, rfl, rfl⟩, ⟨rfl, rfl⟩, ⟨rfl, rfl⟩, ⟨?_, ?_⟩, ?_⟩
  · exact (Float32.toRat?_abs_neg v).1
  · show (Float32.neg (Float32.abs v)).toRat? = v.toRat?.map (fun q => -|q|)
    rw [(Float32.toRat?_abs_neg (Float32.abs v)).2, (Float32.toRat?_abs_neg v).1,
      Option.map_map]
    rfl
  intro hv
  have hk : (0 : Int) ≤ (Float32.abs v).key := by
    rw [Float32.key_abs]
    exact abs_nonneg _
  have hz : Float32.zero.key = 0 := by decide
  have hzn : Float32.zero.isNaN = false := by decide
  constructor
  · rw [Float32.le_iff]
    refine ⟨hzn, ?_, ?_⟩
    · show (Float32.abs v).isNaN = false
      rw [Float32.isNaN_abs]
      exact hv
    · show Float32.zero.key ≤ (Float32.abs v).key
      rw [hz]
      exact hk
  · rw [Float32.le_iff]
    refine ⟨?_, hzn, ?_⟩
    · show (Float32.neg (Float32.abs v)).isNaN = false
      rw [Float32.isNaN_neg, Float32.isNaN_abs]
      exact hv
    · show (Float32.neg (Float32.abs v)).key ≤ Float32.zero.key
      rw [hz, Float32.key_neg]
      omega

/-- Claim C6, the three cases of the spec: (0.6, true) gives throttle 0.6,
automatic gear mode, gear 0; (0.6, false) gives throttle -0.6, automatic gear
mode, gear -1; (-0.6, true) gives throttle 0.6, automatic gear mode, gear 0. -/
theorem C6_set_throttle_result_witness :
    Float32.point6.isNaN = false ∧
    ((CarApiBase.CarControls.set_throttle {} Float32.point6 true).throttle = Float32.point6 ∧
      (CarApiBase.CarControls.set_throttle {} Float32.point6 true).is_manual_gear = false ∧
      (CarApiBase.CarControls.set_throttle {} Float32.point6 true).manual_gear = 0) ∧
    ((CarApiBase.CarControls.set_throttle {} Float32.point6 false).throttle = Float32.negPoint6 ∧
      (CarApiBase.CarControls.set_throttle {} Float32.point6 false).is_manual_gear = false ∧
      (CarApiBase.CarControls.set_throttle {} Float32.point6 false).manual_gear = -1) ∧
    ((CarApiBase.CarControls.set_throttle {} Float32.negPoint6 true).throttle = Float32.point6 ∧
      (CarApiBase.CarControls.set_throttle {} Float32.negPoint6 true).is_manual_gear = false ∧
      (CarApiBase.CarControls.set_throttle {} Float32.negPoint6 true).manual_gear = 0) ∧
    (Float32.le Float32.zero
        (CarApiBase.CarControls.set_throttle {} Float32.point6 true).throttle = true ∧
      Float32.le (CarApiBase.CarControls.set_throttle {} Float32.point6 false).throttle
        Float32.zero = true) :=
  ⟨by decide, (C6_set_throttle_result {} Float32.point6).1,
    (C6_set_throttle_result {} Float32.point6).2.1,
    (C6_set_throttle_result {} Float32.negPoint6).1,
    (C6_set_throttle_result {} Float32.point6).2.2.2.2.2 (by decide)⟩

/-- Claim C9, counterexample: `set_throttle(2.0, true)` stores 2.0, which is
above 1. -/
theorem C9_counterexample :
    (CarApiBase.CarControls.set_throttle {} Float32.two true).throttle = Float32.two ∧
    Float32.le (CarApiBase.CarControls.set_throttle {} Float32.two true).throttle
      Float32.one = false := by
  decide

/-- Claim C9, amended: `set_throttle` does not clamp; when the value passed lies
in [-1, 1], the throttle field lies in [-1, 1] after `set_throttle(v, forward)`,
for every record and either direction. -/
theorem C9_throttle_range (c : CarApiBase.CarControls) (v : Float32) (forward : Bool)
    (hlo : Float32.le Float32.negOne v = true) (hhi : Float32.le v Float32.one = true) :
    Float32.le Float32.negOne (c.set_throttle v forward).throttle = true ∧
    Float32.le (c.set_throttle v forward).throttle Float32.one = true := by
  have hv : v.isNaN = false := Float32.isNaN_of_le_right hlo
  have h1 : Float32.negOne.key ≤ v.key := ((Float32.le_iff _ _).1 hlo).2.2
  have h2 : v.key ≤ Float32.one.key := ((Float32.le_iff _ _).1 hhi).2.2
  have hn : Float32.negOne.key = -1065353216 := by decide
  have ho : Float32.one.key = 1065353216 := by decide
  have hnn : Float32.negOne.isNaN = false := by decide
  have hon : Float32.one.isNaN = false := by decide
  have habs : (Float32.abs v).key = |v.key| := Float32.key_abs v
  have hle : |v.key| ≤ 1065353216 := abs_le.2 ⟨by omega, by omega⟩
  have hge : 0 ≤ |v.key| := abs_nonneg _
  cases forward
  · have ht : (c.set_throttle v false).throttle = Float32.neg (Float32.abs v) := rfl
    rw [ht, Float32.le_iff, Float32.le_iff, Float32.isNaN_neg, Float32.isNaN_abs,
      Float32.key_neg, habs, hn, ho]
    exact ⟨⟨hnn, hv, by omega⟩, hv, hon, by omega⟩
  · have ht : (c.set_throttle v true).throttle = Float32.abs v := rfl
    rw [ht, Float32.le_iff, Float32.le_iff, Float32.isNaN_abs, habs, hn, ho]
    exact ⟨⟨hnn, hv, by omega⟩, hv, hon, by omega⟩

/-- Claim C9, amended, at `set_throttle(0.6, false)`. -/
theorem C9_throttle_range_witness :
    Float32.le Float32.negOne Float32.point6 = true ∧
    Float32.le Float32.point6 Float32.one = true ∧
    Float32.le Float32.negOne
      (CarApiBase.CarControls.set_throttle {} Float32.point6 false).throttle = true ∧
    Float32.le (CarApiBase.CarControls.set_throttle {} Float32.point6 false).throttle
      Float32.one = true :=
  ⟨by decide, by decide, C9_throttle_range {} Float32.point6 false (by decide) (by decide)⟩

/-- Claim C10: `set_throttle(v, forward)` leaves steering, brake, handbrake and
gear_immediate as they were, and applying it twice in a row gives the same
record as applying it once. -/
theorem C10_set_throttle_frame_idempotent (c : CarApiBase.CarControls) (v : Float32)
    (forward : Bool) :
    (c.set_throttle v forward).steering = c.steering ∧
    (c.set_throttle v forward).brake = c.brake ∧
    (c.set_throttle v forward).handbrake = c.handbrake ∧
    (c.set_throttle v forward).gear_immediate = c.gear_immediate ∧
    (c.set_throttle v forward).set_throttle v forward = c.set_throttle v forward := by
  cases forward <;> exact ⟨rfl, rfl, rfl, rfl, rfl⟩

/-! ## Sensor configuration: override, fallback, rebuild -/

/-- Claim C1: for a vehicle setting whose sensor mapping is non-empty, whatever
the default mapping, `initialize` (through `addSensorsFromSettings`) calls the
factory once, with the mapping of the vehicle; with a factory that builds one
owned instance and one registry entry per settings entry, storage and registry
after `initialize` hold exactly one sensor per entry of the mapping of the
vehicle, and no sensor for an entry that occurs only in the default mapping. -/
theorem C1_override_not_merge (sensor_defaults : SensorSettingsMap) (self : CarApiBase)
    (vehicle_setting : VehicleSetting) (sensor_factory : SensorFactory)
    (state : KinematicsRef) (environment : EnvironmentRef)
    (hne : vehicle_setting.sensors ≠ [])
    (hf : sensor_factory.BuildsOnePerEntry vehicle_setting.sensors {} []) :
    (∀ (car : CarApiBase) (factory : SensorFactory), car.sensor_factory_ = some factory →
      ( CarApiBase.addSensorsFromSettings sensor_defaults car vehicle_setting).events =
        [Event.createSensorsFromSettings vehicle_setting.sensors]) ∧
    ( self.initialize sensor_defaults vehicle_setting sensor_factory state
      environment).events.filterMap Event.factorySettings? = [vehicle_setting.sensors] ∧
    ( self.initialize sensor_defaults vehicle_setting sensor_factory state environment).failure
      = none ∧
    ( self.initialize sensor_defaults vehicle_setting sensor_factory state
      environment).state.sensor_storage_ = vehicle_setting.sensors.map SensorBase.ofEntry ∧
    ( self.initialize sensor_defaults vehicle_setting sensor_factory state
      environment).state.sensors_.entries = registryFor vehicle_setting.sensors 0 ∧
    (∀ p ∈ ( self.initialize sensor_defaults vehicle_setting sensor_factory state
        environment).state.sensors_.entries,
      ∃ entry ∈ vehicle_setting.sensors, p.1 = entry.2.sensor_type ∧
        ( self.initialize sensor_defaults vehicle_setting sensor_factory state
          environment).state.sensor_storage_[p.2]? = some (SensorBase.ofEntry entry)) ∧
    (∀ entry ∈ sensor_defaults, entry ∉ vehicle_setting.sensors →
      SensorBase.ofEntry entry ∉ ( self.initialize sensor_defaults vehicle_setting sensor_factory
        state environment).state.sensor_storage_ ∧
      ∀ p ∈ ( self.initialize sensor_defaults vehicle_setting sensor_factory state
          environment).state.sensors_.entries,
        ( self.initialize sensor_defaults vehicle_setting sensor_factory state
          environment).state.sensor_storage_[p.2]? ≠ some (SensorBase.ofEntry entry)) := by
  have hpos : vehicle_setting.sensors.length > 0 := List.length_pos.2 hne
  have hbuilt : sensor_factory.createSensorsFromSettings
      (if vehicle_setting.sensors.length > 0 then vehicle_setting.sensors else sensor_defaults)
      {} [] =
        { sensors := { entries := registryFor vehicle_setting.sensors 0 }
          sensor_storage := vehicle_setting.sensors.map SensorBase.ofEntry
          thrown := none } := by
    rw [if_pos hpos]
    have h := hf
    unfold SensorFactory.BuildsOnePerEntry at h
    simpa using h
  have hinit := CarApiBase.initialize_eq sensor_defaults self vehicle_setting sensor_factory
    state environment _ hbuilt
  simp only [if_pos hpos] at hinit
  have hnot : ∀ entry, entry ∉ vehicle_setting.sensors →
      SensorBase.ofEntry entry ∉ vehicle_setting.sensors.map SensorBase.ofEntry := by
    intro entry hout hmem
    obtain ⟨other, hother, heq⟩ := List.mem_map.1 hmem
    exact hout (SensorBase.ofEntry_injective _ _ heq ▸ hother)
  refine ⟨?_, ?_, ?_, ?_, ?_, ?_, ?_⟩
  · intro car factory hcar
    unfold CarApiBase.addSensorsFromSettings
    simp only [hcar, if_pos hpos]
  · rw [hinit]
    simp only [List.filterMap_cons, Event.factorySettings?,
      SensorCollection.initialize_factorySettings]
  · rw [hinit]
  · rw [hinit]
  · rw [hinit]
  · rw [hinit]
    intro p hp
    obtain ⟨i, entry, hentry, hpe⟩ := registryFor_mem _ _ p hp
    refine ⟨entry, List.getElem?_mem hentry, ?_, ?_⟩
    · rw [hpe]
    · rw [hpe]
      simp only [Nat.zero_add, List.getElem?_map, hentry, Option.map_some']
  · intro entry _ hout
    rw [hinit]
    refine ⟨hnot entry hout, ?_⟩
    intro p _ hget
    exact hnot entry hout (List.getElem?_mem hget)

/-- Claim C1 on a vehicle declaring one lidar, the defaults being a GPS and an
IMU: after `initialize` the storage holds the lidar alone. -/
theorem C1_override_not_merge_witness :
    exampleLidarVehicle.sensors ≠ [] ∧
    exampleFactory.BuildsOnePerEntry exampleLidarVehicle.sensors {} [] ∧
    ( exampleCar.initialize exampleDefaults exampleLidarVehicle exampleFactory 0
      0).events.filterMap Event.factorySettings? = [exampleLidarVehicle.sensors] ∧
    ( exampleCar.initialize exampleDefaults exampleLidarVehicle exampleFactory 0 0).failure
      = none ∧
    ( exampleCar.initialize exampleDefaults exampleLidarVehicle exampleFactory 0
      0).state.sensor_storage_ = exampleLidarVehicle.sensors.map SensorBase.ofEntry ∧
    ( exampleCar.initialize exampleDefaults exampleLidarVehicle exampleFactory 0
      0).state.sensors_.entries = registryFor exampleLidarVehicle.sensors 0 :=
  have h := C1_override_not_merge exampleDefaults exampleCar exampleLidarVehicle exampleFactory
    0 0 (by decide) (by unfold SensorFactory.BuildsOnePerEntry; decide)
  ⟨by decide, by unfold SensorFactory.BuildsOnePerEntry; decide, h.2.1, h.2.2.1, h.2.2.2.1,
    h.2.2.2.2.1⟩

/-- Claim C2: for a vehicle setting whose sensor mapping is empty, `initialize`
(through `addSensorsFromSettings`) calls the factory once, with the process-wide
default mapping; with a factory that builds one owned instance and one registry
entry per settings entry, the registry after `initialize` holds exactly the
default sensor set: as many sensors as the default mapping has entries, and
under each category as many as the default mapping has of that category. -/
theorem C2_default_fallback (sensor_defaults : SensorSettingsMap) (self : CarApiBase)
    (vehicle_setting : VehicleSetting) (sensor_factory : SensorFactory)
    (state : KinematicsRef) (environment : EnvironmentRef)
    (hempty : vehicle_setting.sensors = [])
    (hf : sensor_factory.BuildsOnePerEntry sensor_defaults {} []) :
    (∀ (car : CarApiBase) (factory : SensorFactory), car.sensor_factory_ = some factory →
      ( CarApiBase.addSensorsFromSettings sensor_defaults car vehicle_setting).events =
        [Event.createSensorsFromSettings sensor_defaults]) ∧
    ( self.initialize sensor_defaults vehicle_setting sensor_factory state
      environment).events.filterMap Event.factorySettings? = [sensor_defaults] ∧
    ( self.initialize sensor_defaults vehicle_setting sensor_factory state environment).failure
      = none ∧
    ( self.initialize sensor_defaults vehicle_setting sensor_factory state
      environment).state.sensor_storage_ = sensor_defaults.map SensorBase.ofEntry ∧
    ( self.initialize sensor_defaults vehicle_setting sensor_factory state
      environment).state.sensors_.entries = registryFor sensor_defaults 0 ∧
    ( self.initialize sensor_defaults vehicle_setting sensor_factory state
      environment).state.sensors_.entries.length = sensor_defaults.length ∧
    (∀ type : SensorType,
      ( self.initialize sensor_defaults vehicle_setting sensor_factory state
        environment).state.sensors_.size type =
        (sensor_defaults.filter (fun entry => entry.2.sensor_type == type)).length) := by
  have hpos : ¬ vehicle_setting.sensors.length > 0 := by simp [hempty]
  have hbuilt : sensor_factory.createSensorsFromSettings
      (if vehicle_setting.sensors.length > 0 then vehicle_setting.sensors else sensor_defaults)
      {} [] =
        { sensors := { entries := registryFor sensor_defaults 0 }
          sensor_storage := sensor_defaults.map SensorBase.ofEntry
          thrown := none } := by
    rw [if_neg hpos]
    have h := hf
    unfold SensorFactory.BuildsOnePerEntry at h
    simpa using h
  have hinit := CarApiBase.initialize_eq sensor_defaults self vehicle_setting sensor_factory
    state environment _ hbuilt
  simp only [if_neg hpos] at hinit
  have hentries : ( self.initialize sensor_defaults vehicle_setting sensor_factory state
      environment).state.sensors_ = { entries := registryFor sensor_defaults 0 } := by
    rw [hinit]
  refine ⟨?_, ?_, ?_, ?_, ?_, ?_, ?_⟩
  · intro car factory hcar
    unfold CarApiBase.addSensorsFromSettings
    simp only [hcar, if_neg hpos]
  · rw [hinit]
    simp only [List.filterMap_cons, Event.factorySettings?,
      SensorCollection.initialize_factorySettings]
  · rw [hinit]
  · rw [hinit]
  · rw [hentries]
  · rw [hentries]
    exact registryFor_length sensor_defaults 0
  · intro type
    rw [hentries]
    exact SensorCollection.size_registryFor sensor_defaults type

/-- Claim C2 on a vehicle declaring no sensor, the defaults being a GPS and an
IMU: after `initialize` the registry holds the GPS and the IMU. -/
theorem C2_default_fallback_witness :
    exampleBareVehicle.sensors = [] ∧
    exampleFactory.BuildsOnePerEntry exampleDefaults {} [] ∧
    ( exampleCar.initialize exampleDefaults exampleBareVehicle exampleFactory 0
      0).events.filterMap Event.factorySettings? = [exampleDefaults] ∧
    ( exampleCar.initialize exampleDefaults exampleBareVehicle exampleFactory 0
      0).state.sensor_storage_ = exampleDefaults.map SensorBase.ofEntry ∧
    ( exampleCar.initialize exampleDefaults exampleBareVehicle exampleFactory 0
      0).state.sensors_.entries = registryFor exampleDefaults 0 ∧
    ( exampleCar.initialize exampleDefaults exampleBareVehicle exampleFactory 0
      0).state.sensors_.entries.length = exampleDefaults.length :=
  have h := C2_default_fallback exampleDefaults exampleCar exampleBareVehicle exampleFactory
    0 0 (by decide) (by unfold SensorFactory.BuildsOnePerEntry; decide)
  ⟨by decide, by unfold SensorFactory.BuildsOnePerEntry; decide, h.2.1, h.2.2.2.1,
    h.2.2.2.2.1, h.2.2.2.2.2.1⟩

/-- Claim C3: calling `initialize` with c1 and then `initialize` with c2 leaves
sensor storage and sensor registry equal to what `initialize` with c2 produces
on a freshly created vehicle, for every factory, also one that only appends to
the storage and the registry it is given; so do the calls made and the outcome. -/
theorem C3_full_rebuild (sensor_defaults : SensorSettingsMap) (self : CarApiBase)
    (c1 c2 : VehicleSetting) (factory1 factory2 : SensorFactory)
    (state1 state2 : KinematicsRef) (environment1 environment2 : EnvironmentRef) :
    ( CarApiBase.initialize sensor_defaults
        ( self.initialize sensor_defaults c1 factory1 state1 environment1).state
        c2 factory2 state2 environment2).state.sensor_storage_ =
      ( CarApiBase.initialize sensor_defaults {} c2 factory2 state2
        environment2).state.sensor_storage_ ∧
    ( CarApiBase.initialize sensor_defaults
        ( self.initialize sensor_defaults c1 factory1 state1 environment1).state
        c2 factory2 state2 environment2).state.sensors_ =
      ( CarApiBase.initialize sensor_defaults {} c2 factory2 state2 environment2).state.sensors_ ∧
    ( CarApiBase.initialize sensor_defaults
        ( self.initialize sensor_defaults c1 factory1 state1 environment1).state
        c2 factory2 state2 environment2).failure =
      ( CarApiBase.initialize sensor_defaults {} c2 factory2 state2 environment2).failure ∧
    ( CarApiBase.initialize sensor_defaults
        ( self.initialize sensor_defaults c1 factory1 state1 environment1).state
        c2 factory2 state2 environment2).events =
      ( CarApiBase.initialize sensor_defaults {} c2 factory2 state2 environment2).events := by
  have h1 := CarApiBase.initialize_eq sensor_defaults
    ( self.initialize sensor_defaults c1 factory1 state1 environment1).state c2 factory2
    state2 environment2 _ rfl
  have h2 := CarApiBase.initialize_eq sensor_defaults {} c2 factory2 state2 environment2 _ rfl
  rw [h1, h2]
  exact ⟨rfl, rfl, rfl, rfl⟩

/-! ## Lifecycle ordering -/

/-- Claim C4: one call of `reset` performs `VehicleApiBase::reset` exactly once
and the reset of the sensor registry exactly once; in the trace of the call the
vehicle reset comes strictly before the registry reset and before the reset of
every sensor, and every registered sensor is reset. -/
theorem C4_reset_ordering (self : CarApiBase) :
    self.reset.events.count Event.vehicleApiBaseReset = 1 ∧
    self.reset.events.count Event.sensorCollectionReset = 1 ∧
    self.reset.events[0]? = some Event.vehicleApiBaseReset ∧
    (∀ i j : Nat, self.reset.events[i]? = some Event.vehicleApiBaseReset →
      self.reset.events[j]? = some Event.sensorCollectionReset → i < j) ∧
    (∀ (i j : Nat) (sensor : SensorPtr), self.reset.events[i]? = some Event.vehicleApiBaseReset →
      self.reset.events[j]? = some (Event.sensorReset sensor) → i < j) ∧
    (∀ entry ∈ self.sensors_.entries, Event.sensorReset entry.2 ∈ self.reset.events) := by
  have hev : self.reset.events = Event.vehicleApiBaseReset ::
      (Event.sensorCollectionReset :: self.sensors_.entries.map (fun e => Event.sensorReset e.2)) :=
    rfl
  have hnot : Event.vehicleApiBaseReset ∉
      (Event.sensorCollectionReset :: self.sensors_.entries.map (fun e => Event.sensorReset e.2)) := by
    simp
  have hnot2 : Event.sensorCollectionReset ∉
      self.sensors_.entries.map (fun e => Event.sensorReset e.2) := by
    simp
  rw [hev]
  refine ⟨?_, ?_, rfl, ?_, ?_, ?_⟩
  · rw [List.count_cons_self, List.count_eq_zero.2 hnot]
  · rw [List.count_cons_of_ne (by decide), List.count_cons_self, List.count_eq_zero.2 hnot2]
  · intro i j hi hj
    exact Event.head_before _ _ _ hnot (by decide) i j hi hj
  · intro i j sensor hi hj
    exact Event.head_before _ _ _ hnot (fun h => Event.noConfusion h) i j hi hj
  · intro entry hentry
    exact List.mem_cons_of_mem _ (List.mem_cons_of_mem _ (List.mem_map.2 ⟨entry, hentry, rfl⟩))

/-- Claim C4 on a vehicle with two sensors: the trace of `reset` is the vehicle
reset, the registry reset, then the two sensor resets. -/
theorem C4_reset_ordering_witness :
    exampleCar.reset.events.count Event.vehicleApiBaseReset = 1 ∧
    exampleCar.reset.events.count Event.sensorCollectionReset = 1 ∧
    exampleCar.reset.events[0]? = some Event.vehicleApiBaseReset ∧
    exampleCar.reset.events = [Event.vehicleApiBaseReset, Event.sensorCollectionReset,
      Event.sensorReset 0, Event.sensorReset 1] :=
  ⟨(C4_reset_ordering exampleCar).1, (C4_reset_ordering exampleCar).2.1,
    (C4_reset_ordering exampleCar).2.2.1, by decide⟩

/-- Claim C5: one call of `update` performs `VehicleApiBase::update` exactly once
and the update of the sensor registry exactly once; in the trace of the call
the vehicle update comes strictly before the registry update and before the
update of every sensor, and every registered sensor is updated. -/
theorem C5_update_ordering (self : CarApiBase) :
    self.update.events.count Event.vehicleApiBaseUpdate = 1 ∧
    self.update.events.count Event.sensorCollectionUpdate = 1 ∧
    self.update.events[0]? = some Event.vehicleApiBaseUpdate ∧
    (∀ i j : Nat, self.update.events[i]? = some Event.vehicleApiBaseUpdate →
      self.update.events[j]? = some Event.sensorCollectionUpdate → i < j) ∧
    (∀ (i j : Nat) (sensor : SensorPtr), self.update.events[i]? = some Event.vehicleApiBaseUpdate →
      self.update.events[j]? = some (Event.sensorUpdate sensor) → i < j) ∧
    (∀ entry ∈ self.sensors_.entries, Event.sensorUpdate entry.2 ∈ self.update.events) := by
  have hev : self.update.events = Event.vehicleApiBaseUpdate ::
      (Event.sensorCollectionUpdate :: self.sensors_.entries.map (fun e => Event.sensorUpdate e.2)) :=
    rfl
  have hnot : Event.vehicleApiBaseUpdate ∉
      (Event.sensorCollectionUpdate :: self.sensors_.entries.map (fun e => Event.sensorUpdate e.2)) := by
    simp
  have hnot2 : Event.sensorCollectionUpdate ∉
      self.sensors_.entries.map (fun e => Event.sensorUpdate e.2) := by
    simp
  rw [hev]
  refine ⟨?_, ?_, rfl, ?_, ?_, ?_⟩
  · rw [List.count_cons_self, List.count_eq_zero.2 hnot]
  · rw [List.count_cons_of_ne (by decide), List.count_cons_self, List.count_eq_zero.2 hnot2]
  · intro i j hi hj
    exact Event.head_before _ _ _ hnot (by decide) i j hi hj
  · intro i j sensor hi hj
    exact Event.head_before _ _ _ hnot (fun h => Event.noConfusion h) i j hi hj
  · intro entry hentry
    exact List.mem_cons_of_mem _ (List.mem_cons_of_mem _ (List.mem_map.2 ⟨entry, hentry, rfl⟩))

/-- Claim C5 on a vehicle with two sensors: the trace of `update` is the vehicle
update, the registry update, then the two sensor updates. -/
theorem C5_update_ordering_witness :
    exampleCar.update.events.count Event.vehicleApiBaseUpdate = 1 ∧
    exampleCar.update.events.count Event.sensorCollectionUpdate = 1 ∧
    exampleCar.update.events[0]? = some Event.vehicleApiBaseUpdate ∧
    exampleCar.update.events = [Event.vehicleApiBaseUpdate, Event.sensorCollectionUpdate,
      Event.sensorUpdate 0, Event.sensorUpdate 1] :=
  ⟨(C5_update_ordering exampleCar).1, (C5_update_ordering exampleCar).2.1,
    (C5_update_ordering exampleCar).2.2.1, by decide⟩

/-! ## Failure of the factory -/

/-- Claim C7: when `createSensorsFromSettings`, called by `initialize` on the
resolved settings, reports a configuration error, `initialize` ends with that
same error, having made the factory call and no call on the sensor registry,
and the constructor fails with that error; conversely `initialize` ends in a
failure only if the factory reported it as an error; and when the factory
reports none, `initialize` goes on to initialize the registry and the
constructor yields the vehicle. -/
theorem C7_factory_failure_propagates (sensor_defaults : SensorSettingsMap) (self : CarApiBase)
    (vehicle_setting : VehicleSetting) (sensor_factory : SensorFactory)
    (state : KinematicsRef) (environment : EnvironmentRef) :
    (∀ e : ConfigError,
      (sensor_factory.createSensorsFromSettings
        (if vehicle_setting.sensors.length > 0 then vehicle_setting.sensors else sensor_defaults)
        {} []).thrown = some e →
      ( self.initialize sensor_defaults vehicle_setting sensor_factory state environment).failure
        = some (Failure.configuration e) ∧
      ( self.initialize sensor_defaults vehicle_setting sensor_factory state environment).events
        = [Event.createSensorsFromSettings
            (if vehicle_setting.sensors.length > 0 then vehicle_setting.sensors
              else sensor_defaults)] ∧
      CarApiBase.construct sensor_defaults vehicle_setting sensor_factory state environment
        = Except.error (Failure.configuration e)) ∧
    (∀ failure : Failure,
      ( self.initialize sensor_defaults vehicle_setting sensor_factory state environment).failure
        = some failure →
      ∃ e : ConfigError, failure = Failure.configuration e ∧
        (sensor_factory.createSensorsFromSettings
          (if vehicle_setting.sensors.length > 0 then vehicle_setting.sensors
            else sensor_defaults)
          {} []).thrown = some e) ∧
    ((sensor_factory.createSensorsFromSettings
        (if vehicle_setting.sensors.length > 0 then vehicle_setting.sensors else sensor_defaults)
        {} []).thrown = none →
      ( self.initialize sensor_defaults vehicle_setting sensor_factory state environment).failure
        = none ∧
      Event.sensorCollectionInitialize state environment ∈
        ( self.initialize sensor_defaults vehicle_setting sensor_factory state environment).events ∧
      CarApiBase.construct sensor_defaults vehicle_setting sensor_factory state environment
        = Except.ok ( CarApiBase.initialize sensor_defaults {} vehicle_setting sensor_factory
            state environment).state) := by
  have hself := CarApiBase.initialize_eq sensor_defaults self vehicle_setting sensor_factory
    state environment _ rfl
  have hnew := CarApiBase.initialize_eq sensor_defaults {} vehicle_setting sensor_factory
    state environment _ rfl
  refine ⟨?_, ?_, ?_⟩
  · intro e he
    unfold CarApiBase.construct
    rw [hself, hnew, he]
    exact ⟨rfl, rfl, rfl⟩
  · intro failure hfailure
    rw [hself] at hfailure
    cases hthrown : (sensor_factory.createSensorsFromSettings
        (if vehicle_setting.sensors.length > 0 then vehicle_setting.sensors else sensor_defaults)
        {} []).thrown with
    | none =>
      rw [hthrown] at hfailure
      exact absurd hfailure (by simp)
    | some e2 =>
      rw [hthrown] at hfailure
      exact ⟨e2, (Option.some.inj hfailure).symm, rfl⟩
  · intro hnone
    unfold CarApiBase.construct
    rw [hself, hnew, hnone]
    exact ⟨rfl, List.mem_cons_of_mem _ (List.mem_cons_self _ _), rfl⟩

/-- Claim C7 on a vehicle declaring a sensor of an unknown category: the factory
reports the category, and so do `initialize` and the constructor. -/
theorem C7_factory_failure_propagates_witness :
    (exampleFactory.createSensorsFromSettings
      (if exampleBrokenVehicle.sensors.length > 0 then exampleBrokenVehicle.sensors
        else exampleDefaults) {} []).thrown = some (ConfigError.unrecognizedCategory 99) ∧
    ( exampleCar.initialize exampleDefaults exampleBrokenVehicle exampleFactory 0 0).failure
      = some (Failure.configuration (ConfigError.unrecognizedCategory 99)) ∧
    ( exampleCar.initialize exampleDefaults exampleBrokenVehicle exampleFactory 0 0).events
      = [Event.createSensorsFromSettings
          (if exampleBrokenVehicle.sensors.length > 0 then exampleBrokenVehicle.sensors
            else exampleDefaults)] ∧
    CarApiBase.construct exampleDefaults exampleBrokenVehicle exampleFactory 0 0
      = Except.error (Failure.configuration (ConfigError.unrecognizedCategory 99)) :=
  ⟨by decide,
    (C7_factory_failure_propagates exampleDefaults exampleCar exampleBrokenVehicle exampleFactory
      0 0).1 (ConfigError.unrecognizedCategory 99) (by decide)⟩

/-! ## `reportState` -/

/-- Claim C8: what `reportState` writes into the reporter is exactly what the
`reportState` of the sensor registry writes into it, one entry per registered
sensor and none from the vehicle; the registry report is called exactly once;
sensor storage, registry and factory reference are left unchanged. -/
theorem C8_reportState_delegates (self : CarApiBase) (reporter : StateReporter) :
    (self.reportState reporter).2 = self.sensors_.reportState reporter ∧
    (self.reportState reporter).2 = reporter ++
      self.sensors_.entries.map (fun e => { sensor := e.2, sensor_type := e.1 }) ∧
    (self.reportState reporter).2.length = reporter.length + self.sensors_.entries.length ∧
    (self.reportState reporter).1.events = self.sensors_.reportStateEvents ∧
    (self.reportState reporter).1.events.count Event.sensorCollectionReportState = 1 ∧
    (self.reportState reporter).1.state.sensor_storage_ = self.sensor_storage_ ∧
    (self.reportState reporter).1.state.sensors_ = self.sensors_ ∧
    (self.reportState reporter).1.state.sensor_factory_ = self.sensor_factory_ ∧
    (self.reportState reporter).1.failure = none := by
  have hnot : Event.sensorCollectionReportState ∉
      self.sensors_.entries.map (fun e => Event.sensorReportState e.2) := by
    simp
  refine ⟨rfl, rfl, ?_, rfl, ?_, rfl, rfl, rfl, rfl⟩
  · simp [CarApiBase.reportState, CarApiBase.getSensors, SensorCollection.reportState]
  · show (Event.sensorCollectionReportState ::
      self.sensors_.entries.map (fun e => Event.sensorReportState e.2)).count
        Event.sensorCollectionReportState = 1
    rw [List.count_cons_self, List.count_eq_zero.2 hnot]

end msr.airlib
